import Mathlib

/-!
Shallow embedding of the open-face-Chinese-poker engine (`newananas`):
the card model (`core/card.py`), the hand evaluator
(`evaluation/evaluator.py`), the royalty calculator
(`evaluation/royalty.py`), the board (`core/board.py`) and the fantasy
manager (`core/fantasy.py`), together with theorems settling the frozen
claims about them.
-/

namespace Newananas

/-- Embeds the `Suit` enum of `core/card.py`. -/
inductive Suit where
  | spades | hearts | diamonds | clubs
deriving DecidableEq, Repr

/-- Embeds the `Rank` enum of `core/card.py`. -/
inductive Rank where
  | two | three | four | five | six | seven | eight | nine | ten
  | jack | queen | king | ace
deriving DecidableEq, Repr

/-- Numeric value of a `Rank` enum member (2..14), as in `core/card.py`. -/
def Rank.value : Rank → Nat
  | .two => 2 | .three => 3 | .four => 4 | .five => 5 | .six => 6
  | .seven => 7 | .eight => 8 | .nine => 9 | .ten => 10
  | .jack => 11 | .queen => 12 | .king => 13 | .ace => 14

/-- Embeds the frozen `Card` dataclass of `core/card.py`. -/
structure Card where
  rank : Rank
  suit : Suit
deriving DecidableEq, Repr

/-- All thirteen ranks, in enum-declaration order. -/
def allRanks : List Rank :=
  [.two, .three, .four, .five, .six, .seven, .eight, .nine, .ten,
   .jack, .queen, .king, .ace]

namespace HandEvaluator

/-- Embeds `HandEvaluator._get_rank_counts`: the Python dict `{rank: count}`
over the ranks present in the hand, modelled as an association list over the
ranks that occur (key order differs from Python's insertion order; every
consumer of the dict either sorts its projection or tests membership, so
order is immaterial). -/
def rankCounts (cards : List Card) : List (Rank × Nat) :=
  (allRanks.map (fun r => (r, (cards.filter (fun c => c.rank = r)).length))).filter
    (fun p => p.2 ≠ 0)

/-- The multiset of counts, `rank_counts.values()`. -/
def countsValues (cards : List Card) : List Nat :=
  (rankCounts cards).map (fun p => p.2)

/-- Embeds `HandEvaluator._is_flush`: fewer than 5 cards is never a flush;
otherwise all suits must coincide (`len(set(suits)) == 1`). -/
def isFlush (cards : List Card) : Bool :=
  if cards.length < 5 then false
  else (cards.map (fun c => c.suit)).dedup.length = 1

/-- The hand's rank values sorted ascending,
`sorted([c.rank.value for c in cards])`. -/
def sortedRankValues (cards : List Card) : List Nat :=
  (cards.map (fun c => c.rank.value)).insertionSort (· ≤ ·)

/-- Embeds `HandEvaluator._is_straight`: five-plus cards whose sorted rank
values are either the wheel `[2,3,4,5,14]` or the full integer range from
their minimum to their maximum. -/
def isStraight (cards : List Card) : Bool :=
  if cards.length < 5 then false
  else
    let ranks := sortedRankValues cards
    if ranks = [2, 3, 4, 5, 14] then true
    else
      let lo := ranks.min?.getD 0
      let hi := ranks.max?.getD 0
      ranks = List.range' lo (hi + 1 - lo)

/-- Embeds `HandEvaluator._is_straight_flush`. -/
def isStraightFlush (cards : List Card) : Bool :=
  isFlush cards && isStraight cards

/-- Embeds `HandEvaluator._is_royal_flush`: a straight flush whose maximum
rank value is 14. -/
def isRoyalFlush (cards : List Card) : Bool :=
  if ¬ isStraightFlush cards then false
  else ((cards.map (fun c => c.rank.value)).max?.getD 0) = 14

/-- Embeds `HandEvaluator._is_four_of_kind`: `4 in rank_counts.values()`. -/
def isFourOfKind (cards : List Card) : Bool :=
  (countsValues cards).contains 4

/-- Embeds `HandEvaluator._is_full_house`: `3 in values and 2 in values`. -/
def isFullHouse (cards : List Card) : Bool :=
  (countsValues cards).contains 3 && (countsValues cards).contains 2

/-- Embeds `HandEvaluator._is_three_of_kind`: `3 in rank_counts.values()`. -/
def isThreeOfKind (cards : List Card) : Bool :=
  (countsValues cards).contains 3

/-- Embeds `HandEvaluator._is_two_pair`: `values.count(2) == 2`. -/
def isTwoPair (cards : List Card) : Bool :=
  (countsValues cards).count 2 = 2

/-- Embeds `HandEvaluator._is_pair`: `2 in rank_counts.values()`. -/
def isPair (cards : List Card) : Bool :=
  (countsValues cards).contains 2

/-- Embeds `HandEvaluator._get_high_card_value`. Note that although its
docstring says it returns the highest card's value, the Python body computes
`min(card.rank.value for card in cards)`; the embedding follows the body. -/
def highCardValue (cards : List Card) : Nat :=
  (cards.map (fun c => c.rank.value)).min?.getD 0

/-- Embeds `HandEvaluator._get_kicker_value`: the distinct rank values of the
hand sorted descending (the Python comprehension binds each rank's `count`
but never uses it), summed as `Σ r_i * 15^i` over their positions. -/
def kickerValue (cards : List Card) : Nat :=
  let kickerRanks := ((rankCounts cards).map (fun p => p.1.value)).insertionSort (· ≥ ·)
  (kickerRanks.enum.map (fun p => p.2 * 15 ^ p.1)).sum

/-- The branch chain of `HandEvaluator.evaluate` for a non-empty hand,
strongest category first; lower result = stronger hand. -/
def evaluateRank (cards : List Card) : Nat :=
  if isRoyalFlush cards then 1
  else if isStraightFlush cards then highCardValue cards
  else if isFourOfKind cards then 10 + kickerValue cards
  else if isFullHouse cards then 166 + kickerValue cards
  else if isFlush cards then 322 + highCardValue cards
  else if isStraight cards then 1599 + highCardValue cards
  else if isThreeOfKind cards then 1609 + kickerValue cards
  else if isTwoPair cards then 2467 + kickerValue cards
  else if isPair cards then 3325 + kickerValue cards
  else 6185 + highCardValue cards

/-- Embeds `HandEvaluator.evaluate`: `float('inf')` on the empty input
(modelled as `⊤` in `ℕ∞`), otherwise the numeric rank of the branch chain. -/
def evaluate (cards : List Card) : ℕ∞ :=
  if cards.isEmpty then ⊤ else ((evaluateRank cards : Nat) : ℕ∞)

end HandEvaluator

namespace RoyaltyCalculator

open HandEvaluator

/-- The ranks appearing with a given count in the hand (projection of
`rank_counts.items()` filtered by count). -/
def ranksWithCount (cards : List Card) (n : Nat) : List Rank :=
  ((rankCounts cards).filter (fun p => p.2 = n)).map (fun p => p.1)

/-- Embeds `RoyaltyCalculator.calculate_front`. The Python `max(...)`
generators range over the ranks with the given count — in every reachable
case a single rank, since the hand has exactly 3 cards — and the embedding
takes the maximum of their numeric values. The pair case clamps at zero,
`max(0, rank.value - 5)`, which matches truncated subtraction on `Nat`. -/
def calculateFront (cards : List Card) : Nat :=
  if cards.length ≠ 3 then 0
  else
    let maxCount := (countsValues cards).max?.getD 0
    if maxCount = 3 then
      10 + (((ranksWithCount cards 3).map Rank.value).max?.getD 0)
    else if maxCount = 2 then
      max 0 ((((ranksWithCount cards 2).map Rank.value).max?.getD 0) - 5)
    else 0

/-- Embeds `RoyaltyCalculator.calculate_middle`: 0 unless exactly 5 cards,
otherwise royalty by the evaluated rank's position among the band
thresholds. -/
def calculateMiddle (cards : List Card) : Nat :=
  if cards.length ≠ 5 then 0
  else
    let rank := evaluate cards
    if rank ≤ ((1609 : Nat) : ℕ∞) then
      if rank ≤ ((1 : Nat) : ℕ∞) then 50
      else if rank ≤ ((10 : Nat) : ℕ∞) then 30
      else if rank ≤ ((166 : Nat) : ℕ∞) then 20
      else if rank ≤ ((322 : Nat) : ℕ∞) then 12
      else if rank ≤ ((1599 : Nat) : ℕ∞) then 8
      else 2
    else 0

/-- Embeds `RoyaltyCalculator.calculate_back`: 0 unless exactly 5 cards,
otherwise royalty by the evaluated rank's position among the band
thresholds. -/
def calculateBack (cards : List Card) : Nat :=
  if cards.length ≠ 5 then 0
  else
    let rank := evaluate cards
    if rank ≤ ((1 : Nat) : ℕ∞) then 25
    else if rank ≤ ((10 : Nat) : ℕ∞) then 15
    else if rank ≤ ((166 : Nat) : ℕ∞) then 10
    else if rank ≤ ((322 : Nat) : ℕ∞) then 6
    else if rank ≤ ((1599 : Nat) : ℕ∞) then 4
    else if rank ≤ ((1609 : Nat) : ℕ∞) then 2
    else 0

end RoyaltyCalculator

/-- Embeds the `Street` enum of `core/board.py`. -/
inductive Street where
  | front | middle | back
deriving DecidableEq, Repr

/-- Embeds the `StreetHand` dataclass of `core/board.py`: one row of the
board. -/
structure StreetHand where
  cards : List Card := []
  maxCards : Nat := 5
deriving DecidableEq, Repr

/-- Errors raised by row operations; `rowFull` models the
`ValueError("Street is full")` raised by `StreetHand.add_card`. -/
inductive PlaceError where
  | rowFull
deriving DecidableEq, Repr

/-- Python runtime errors surfaced by the embedding. `typeError` is the
`TypeError: unhashable type: 'list'` raised when `StreetHand.get_rank` passes
the row's list into the `functools.lru_cache`-wrapped
`HandEvaluator.evaluate` (the cache hashes its arguments before the body
runs). `attributeError` is raised when `StreetHand.from_dict` evaluates
`Card.from_dict`, an attribute `core/card.py` never defines. -/
inductive PyError where
  | typeError
  | attributeError
deriving DecidableEq, Repr

namespace StreetHand

/-- Embeds `StreetHand.add_card`: raises when the row already holds
`max_cards` cards (checked before any mutation), otherwise appends. -/
def addCard (h : StreetHand) (c : Card) : Except PlaceError StreetHand :=
  if h.maxCards ≤ h.cards.length then .error .rowFull
  else .ok { h with cards := h.cards ++ [c] }

/-- Embeds `StreetHand.is_full`. -/
def isFull (h : StreetHand) : Bool :=
  h.cards.length = h.maxCards

/-- Embeds `StreetHand.get_rank`: the body is
`HandEvaluator.evaluate(self.cards)`, passing the row's Python list.
`evaluate` is wrapped in `functools.lru_cache`, whose key construction hashes
every argument, and a list is unhashable — so each call raises
`TypeError: unhashable type: 'list'` before the evaluator body ever runs
(`royalty.py`, by contrast, passes `tuple(cards)` and is unaffected). -/
def getRank (_ : StreetHand) : Except PyError ℕ∞ :=
  .error .typeError

end StreetHand

/-- Embeds the `Board` dataclass of `core/board.py` with its three rows
(front holds up to 3 cards, middle and back up to 5). -/
structure Board where
  front : StreetHand := { cards := [], maxCards := 3 }
  middle : StreetHand := { cards := [], maxCards := 5 }
  back : StreetHand := { cards := [], maxCards := 5 }
deriving DecidableEq, Repr

namespace Board

/-- Embeds `Board._get_street`. -/
def getStreet (b : Board) : Street → StreetHand
  | .front => b.front
  | .middle => b.middle
  | .back => b.back

/-- Writes one row back into the board (the Python method mutates the row
object returned by `_get_street` in place). -/
def setStreet (b : Board) : Street → StreetHand → Board
  | .front, h => { b with front := h }
  | .middle, h => { b with middle := h }
  | .back, h => { b with back := h }

/-- Embeds `Board.place_card` in state-passing style: on success the updated
board, on failure the untouched board together with the raised error
(`add_card` raises before appending anything). -/
def placeCard (b : Board) (c : Card) (s : Street) : Board × Option PlaceError :=
  match (b.getStreet s).addCard c with
  | .ok h => (b.setStreet s h, none)
  | .error e => (b, some e)

/-- Embeds `Board.is_complete`: every street is full. -/
def isComplete (b : Board) : Bool :=
  (b.getStreet .front).isFull && (b.getStreet .middle).isFull &&
    (b.getStreet .back).isFull

/-- Embeds `Board.is_valid`: `False` on an incomplete board — returned before
any `get_rank` call — otherwise the three `get_rank` calls followed by
`rank(back) <= rank(middle) <= rank(front)`. On a complete board the first
`get_rank` call raises `TypeError` (see `StreetHand.getRank`), so the chained
comparison is dead code in the source; it is kept here for fidelity. -/
def isValid (b : Board) : Except PyError Bool :=
  if ¬ b.isComplete then .ok false
  else
    b.back.getRank.bind fun backRank =>
      b.middle.getRank.bind fun middleRank =>
        b.front.getRank.bind fun frontRank =>
          .ok (decide (backRank ≤ middleRank) &&
               decide (middleRank ≤ frontRank))

/-- Embeds `Board.get_royalties`: 0 on an incomplete board, otherwise the sum
of the three rows' royalties. -/
def getRoyalties (b : Board) : Nat :=
  if ¬ b.isComplete then 0
  else
    RoyaltyCalculator.calculateFront b.front.cards +
      RoyaltyCalculator.calculateMiddle b.middle.cards +
      RoyaltyCalculator.calculateBack b.back.cards

end Board

/-- Embeds the `FantasyMode` enum of `core/fantasy.py`. -/
inductive FantasyMode where
  | normal | progressive
deriving DecidableEq, Repr

/-- Embeds the `FantasyTrigger` enum of `core/fantasy.py`. -/
inductive FantasyTrigger where
  | QQ | KK | AA | threeOfKind
deriving DecidableEq, Repr

/-- Payload `value["cards"]` of a `FantasyTrigger` member. -/
def FantasyTrigger.cards : FantasyTrigger → Nat
  | .QQ => 14 | .KK => 15 | .AA => 17 | .threeOfKind => 18

/-- One record appended to `FantasyState.history` by `enter_fantasy`. -/
structure HistoryEntry where
  trigger : Option FantasyTrigger
  cardsCount : Nat
  consecutive : Nat
deriving DecidableEq, Repr

/-- Embeds the `FantasyState` dataclass of `core/fantasy.py` (defaults as in
the dataclass; `__post_init__` makes `history` the empty list). -/
structure FantasyState where
  active : Bool := false
  cardsCount : Nat := 13
  progressiveBonus : Option FantasyTrigger := none
  consecutiveFantasies : Nat := 0
  history : List HistoryEntry := []
deriving DecidableEq, Repr

namespace FantasyManager

/-- Python `==` between a `Rank` enum member and a `str` — the comparisons
`ranks[0] == 'Q'` / `'K'` / `'A'` in `_check_progressive_trigger`. An enum
member never equals a string, so the comparison is always `False`. -/
def rankEqStr (_ : Rank) (_ : String) : Bool := false

/-- Embeds `FantasyManager._check_progressive_trigger`: fewer than 2 cards
gives no trigger; the pair branch fires when the first card's rank occurs at
least twice and compares equal to one of the strings "Q", "K", "A"; the trips
branch fires when the hand has exactly 3 cards all of the first card's
rank. -/
def checkProgressiveTrigger (cards : List Card) : Option FantasyTrigger :=
  if cards.length < 2 then none
  else
    let ranks := cards.map (fun c => c.rank)
    let r0 := ranks.headD .two
    if 2 ≤ ranks.count r0 ∧ rankEqStr r0 "Q" then some .QQ
    else if 2 ≤ ranks.count r0 ∧ rankEqStr r0 "K" then some .KK
    else if 2 ≤ ranks.count r0 ∧ rankEqStr r0 "A" then some .AA
    else if cards.length = 3 ∧ ranks.count r0 = 3 then some .threeOfKind
    else none

/-- Embeds `FantasyManager.check_fantasy_entry` in state-passing style over
the manager's `FantasyState`. Its first statement calls `board.is_valid()`:
an exception there propagates before anything else happens (on every complete
board `is_valid` raises `TypeError`, see `Board.isValid`). An invalid board
gives no entry and no state change; the remaining body — reachable only for
incomplete, hence invalid, boards returning `False` — would store a detected
front-row trigger into `progressive_bonus` in progressive mode and grant
entry iff the board's royalties reach 6. -/
def checkFantasyEntry (mode : FantasyMode) (st : FantasyState) (b : Board) :
    Except PyError (FantasyState × Bool) :=
  b.isValid.bind fun valid =>
    if ¬ valid then .ok (st, false)
    else
      let st1 :=
        if mode = FantasyMode.progressive then
          match checkProgressiveTrigger b.front.cards with
          | some t => { st with progressiveBonus := some t }
          | none => st
        else st
      .ok (st1, decide (6 ≤ b.getRoyalties))

/-- Embeds `FantasyManager.enter_fantasy` in state-passing style: activates
fantasy, bumps the consecutive counter, deals the progressive bonus payload
when one is stored in progressive mode and the base 13 otherwise, records a
history entry and returns the dealt count. -/
def enterFantasy (mode : FantasyMode) (st : FantasyState) : FantasyState × Nat :=
  let st1 := { st with active := true,
                       consecutiveFantasies := st.consecutiveFantasies + 1 }
  let cardsCount :=
    match mode, st1.progressiveBonus with
    | FantasyMode.progressive, some t => t.cards
    | _, _ => 13
  let st2 := { st1 with
    cardsCount := cardsCount,
    history := st1.history ++ [{ trigger := st1.progressiveBonus,
                                 cardsCount := cardsCount,
                                 consecutive := st1.consecutiveFantasies }] }
  (st2, cardsCount)

end FantasyManager

/-- Character of a `Rank` member, `Rank.to_char`. -/
def Rank.toChar : Rank → Char
  | .two => '2' | .three => '3' | .four => '4' | .five => '5' | .six => '6'
  | .seven => '7' | .eight => '8' | .nine => '9' | .ten => 'T'
  | .jack => 'J' | .queen => 'Q' | .king => 'K' | .ace => 'A'

/-- Character of a `Suit` member, `Suit.to_char`. -/
def Suit.toChar : Suit → Char
  | .spades => 's' | .hearts => 'h' | .diamonds => 'd' | .clubs => 'c'

/-- Embeds `Rank.from_char` (the Python method upper-cases its argument and
looks it up; an unknown character raises `KeyError`, modelled as `none`). -/
def Rank.fromChar (c : Char) : Option Rank :=
  match c.toUpper with
  | '2' => some .two | '3' => some .three | '4' => some .four
  | '5' => some .five | '6' => some .six | '7' => some .seven
  | '8' => some .eight | '9' => some .nine | 'T' => some .ten
  | 'J' => some .jack | 'Q' => some .queen | 'K' => some .king
  | 'A' => some .ace
  | _ => none

/-- Embeds `Suit.from_char` (the Python method lower-cases its argument and
looks it up; an unknown character raises `KeyError`, modelled as `none`). -/
def Suit.fromChar (c : Char) : Option Suit :=
  match c.toLower with
  | 's' => some .spades | 'h' => some .hearts
  | 'd' => some .diamonds | 'c' => some .clubs
  | _ => none

/-- Embeds `Card.to_string`: the rank character followed by the suit
character. -/
def Card.toString (c : Card) : String :=
  String.mk [c.rank.toChar, c.suit.toChar]

/-- Embeds `Card.from_string`: rejects strings whose length is not 2
(`ValueError`), then parses rank and suit characters (`KeyError` on unknown
characters, modelled as `none`). -/
def Card.fromString (s : String) : Option Card :=
  if s.length ≠ 2 then none
  else
    match s.data with
    | [c0, c1] =>
      match Rank.fromChar c0, Suit.fromChar c1 with
      | some r, some su => some { rank := r, suit := su }
      | _, _ => none
    | _ => none

/-- The dictionary produced by `Card.to_dict`. -/
structure CardDict where
  rank : Char
  suit : Char
  color : String
  display : String
  id : String
deriving DecidableEq, Repr

/-- Embeds `Card.to_dict`. -/
def Card.toDict (c : Card) : CardDict :=
  { rank := c.rank.toChar
    suit := c.suit.toChar
    color := if c.suit = Suit.hearts ∨ c.suit = Suit.diamonds then "red" else "black"
    display := String.mk [c.rank.toChar, c.suit.toChar]
    id := String.mk [c.rank.toChar, c.suit.toChar] }

/-- The call `Card.from_dict(card_data)` made by `StreetHand.from_dict`
(`core/board.py` line 53): class `Card` has no attribute `from_dict`, so for
every argument the attribute lookup raises `AttributeError`. -/
def cardFromDictCall (_ : CardDict) : Except PyError Card :=
  .error .attributeError

/-- The dictionary produced by `StreetHand.to_dict`. -/
structure StreetHandDict where
  cards : List CardDict
  maxCards : Nat
deriving DecidableEq, Repr

/-- Embeds `StreetHand.to_dict`. -/
def StreetHand.toDict (h : StreetHand) : StreetHandDict :=
  { cards := h.cards.map Card.toDict, maxCards := h.maxCards }

/-- Embeds `StreetHand.from_dict`: maps `Card.from_dict` over the stored
cards (a list comprehension, so on an empty card list the missing attribute
is never evaluated and no error is raised). -/
def StreetHand.fromDict (d : StreetHandDict) : Except PyError StreetHand := do
  let cards ← d.cards.mapM cardFromDictCall
  return { cards := cards, maxCards := d.maxCards }

/-- The dictionary produced by `Board.to_dict`. -/
structure BoardDict where
  front : StreetHandDict
  middle : StreetHandDict
  back : StreetHandDict
deriving DecidableEq, Repr

/-- Embeds `Board.to_dict`. -/
def Board.toDict (b : Board) : BoardDict :=
  { front := b.front.toDict, middle := b.middle.toDict, back := b.back.toDict }

/-- Embeds `Board.from_dict`: rebuilds the three rows with
`StreetHand.from_dict`. -/
def Board.fromDict (d : BoardDict) : Except PyError Board := do
  let f ← StreetHand.fromDict d.front
  let m ← StreetHand.fromDict d.middle
  let bk ← StreetHand.fromDict d.back
  return { front := f, middle := m, back := bk }

/-! Concrete hands and boards used by the claim theorems and witnesses. -/

/-- Four aces with a king kicker. -/
def quadAcesKing : List Card :=
  [⟨.ace, .spades⟩, ⟨.ace, .hearts⟩, ⟨.ace, .diamonds⟩,
   ⟨.ace, .clubs⟩, ⟨.king, .spades⟩]

/-- Threes full of twos. -/
def fullHouseThrees : List Card :=
  [⟨.three, .spades⟩, ⟨.three, .hearts⟩, ⟨.three, .diamonds⟩,
   ⟨.two, .spades⟩, ⟨.two, .hearts⟩]

/-- The wheel straight 2,3,4,5,A in mixed suits. -/
def wheelStraight : List Card :=
  [⟨.two, .spades⟩, ⟨.three, .hearts⟩, ⟨.four, .diamonds⟩,
   ⟨.five, .clubs⟩, ⟨.ace, .spades⟩]

/-- A jack-high no-pair hand in mixed suits. -/
def jackHighHand : List Card :=
  [⟨.jack, .spades⟩, ⟨.nine, .hearts⟩, ⟨.seven, .diamonds⟩,
   ⟨.five, .clubs⟩, ⟨.two, .spades⟩]

/-- A jack-high heart flush. -/
def jackHighFlush : List Card :=
  [⟨.jack, .hearts⟩, ⟨.nine, .hearts⟩, ⟨.seven, .hearts⟩,
   ⟨.five, .hearts⟩, ⟨.two, .hearts⟩]

/-- A board with no cards placed yet. -/
def emptyBoard : Board := {}

/-- A board holding a single card in its front row. -/
def oneCardBoard : Board :=
  { front := { cards := [⟨.ace, .hearts⟩], maxCards := 3 } }

/-- A board whose front row is at its 3-card capacity. -/
def fullFrontBoard : Board :=
  { front := { cards := [⟨.king, .hearts⟩, ⟨.queen, .hearts⟩, ⟨.jack, .hearts⟩],
               maxCards := 3 } }

/-- A board holding trip twos in its front row and nothing elsewhere — it
carries a progressive trigger up front but is incomplete. -/
def tripsFrontOnlyBoard : Board :=
  { front := { cards := [⟨.two, .spades⟩, ⟨.two, .hearts⟩, ⟨.two, .diamonds⟩],
               maxCards := 3 } }

/-- A complete board whose back row (jack high, evaluator rank 6187) is
strictly weaker than its middle row (quad sixes, evaluator rank 107), so it
violates the claimed back-to-front ordering. -/
def misorderedBoard : Board :=
  { front := { cards := [⟨.king, .hearts⟩, ⟨.queen, .hearts⟩, ⟨.jack, .hearts⟩],
               maxCards := 3 }
    middle := { cards := [⟨.six, .spades⟩, ⟨.six, .hearts⟩, ⟨.six, .diamonds⟩,
                          ⟨.six, .clubs⟩, ⟨.seven, .spades⟩], maxCards := 5 }
    back := { cards := jackHighHand, maxCards := 5 } }

/-- A complete, valid, fantasy-qualifying board whose front row is a pair of
queens (front pair rank 3367, middle trip threes 2349, back quad sixes 107;
royalties 7 + 0 + 10 = 17). -/
def qqBoard : Board :=
  { front := { cards := [⟨.queen, .spades⟩, ⟨.queen, .hearts⟩, ⟨.two, .spades⟩],
               maxCards := 3 }
    middle := { cards := [⟨.three, .spades⟩, ⟨.three, .hearts⟩, ⟨.three, .diamonds⟩,
                          ⟨.four, .spades⟩, ⟨.five, .spades⟩], maxCards := 5 }
    back := { cards := [⟨.six, .spades⟩, ⟨.six, .hearts⟩, ⟨.six, .diamonds⟩,
                        ⟨.six, .clubs⟩, ⟨.seven, .hearts⟩], maxCards := 5 } }

/-- A complete valid board whose front row is trip twos (front 1611, middle
straight 1602, back straight flush 3). -/
def tripsBoard : Board :=
  { front := { cards := [⟨.two, .spades⟩, ⟨.two, .hearts⟩, ⟨.two, .diamonds⟩],
               maxCards := 3 }
    middle := { cards := [⟨.three, .spades⟩, ⟨.four, .spades⟩, ⟨.five, .spades⟩,
                          ⟨.six, .spades⟩, ⟨.seven, .hearts⟩], maxCards := 5 }
    back := { cards := [⟨.three, .hearts⟩, ⟨.four, .hearts⟩, ⟨.five, .hearts⟩,
                        ⟨.six, .hearts⟩, ⟨.seven, .hearts⟩], maxCards := 5 } }

/-- Shared helper: an incomplete board is reported not valid, and the early
return happens before any of the failing `get_rank` calls. -/
theorem Board.isValid_ok_false_of_not_complete (b : Board)
    (h : b.isComplete = false) : b.isValid = .ok false := by
  simp [Board.isValid, h]

end Newananas


namespace Newananas

/-! ## Theorems settling the claims -/

/-- C1: the claimed category separation fails on the code. At the concrete
hands A,A,A,A,K (four of a kind) and 3,3,3,2,2 (full house),
`HandEvaluator.evaluate` returns 219 and 199: the four of a kind receives the
numerically larger (weaker) rank and falls outside the claimed 11–166
four-of-a-kind band, because `_get_kicker_value` ignores how often each rank
occurs. -/
theorem HandEvaluator.quad_aces_outranked_by_full_house :
    HandEvaluator.isFourOfKind quadAcesKing = true ∧
    HandEvaluator.isFullHouse fullHouseThrees = true ∧
    HandEvaluator.evaluate quadAcesKing = ((219 : Nat) : ℕ∞) ∧
    HandEvaluator.evaluate fullHouseThrees = ((199 : Nat) : ℕ∞) ∧
    ¬ ((219 : Nat) < 199) ∧ ¬ ((219 : Nat) ≤ 166) := by
  refine ⟨by decide, by decide, by decide, by decide, by decide, by decide⟩

/-- C2: for flush, straight and high-card hands `HandEvaluator.evaluate` adds
the minimum card value, not the claimed highest card value, and the wheel
straight scores with high card 2, not 5: the jack-high flush evaluates to
322 + 2 = 324 (claimed 322 + 11), the wheel straight to 1599 + 2 = 1601
(claimed 1599 + 5), and the jack-high no-pair hand to 6185 + 2 = 6187
(claimed 6185 + 11). -/
theorem HandEvaluator.evaluate_adds_minimum_not_maximum_card :
    HandEvaluator.isFlush jackHighFlush = true ∧
    HandEvaluator.isStraight wheelStraight = true ∧
    HandEvaluator.evaluate jackHighFlush = ((324 : Nat) : ℕ∞) ∧
    HandEvaluator.evaluate wheelStraight = ((1601 : Nat) : ℕ∞) ∧
    HandEvaluator.evaluate jackHighHand = ((6187 : Nat) : ℕ∞) ∧
    (324 : Nat) ≠ 322 + 11 ∧ (1601 : Nat) ≠ 1599 + 5 ∧
    (6187 : Nat) ≠ 6185 + 11 := by
  refine ⟨by decide, by decide, by decide, by decide, by decide,
          by decide, by decide, by decide⟩

/-- C3: the middle-row royalty for a four of a kind is not always 20: the
quad aces with a king kicker evaluate to 219, land in the 167–322 interval
that `calculate_middle` treats as a full house, and receive 12. -/
theorem RoyaltyCalculator.quad_aces_middle_royalty_is_12 :
    HandEvaluator.isFourOfKind quadAcesKing = true ∧
    RoyaltyCalculator.calculateMiddle quadAcesKing = 12 := by
  refine ⟨by decide, by decide⟩

/-- C4: the incomplete half of the claim holds (the empty board is reported
not valid), but on a complete board — here the concrete one whose middle row
outranks its back row — `is_valid` never returns `False`: its first
`get_rank` call passes the row's list into the `lru_cache`-wrapped
`evaluate` and raises `TypeError: unhashable type: 'list'`. -/
theorem Board.isValid_misordered_board_raises_typeError :
    misorderedBoard.isComplete = true ∧
    misorderedBoard.isValid = Except.error PyError.typeError ∧
    emptyBoard.isValid = Except.ok false := by
  refine ⟨by decide, rfl, rfl⟩

/-- C5 (counterexample): `HandEvaluator.evaluate` performs no size check — on
the single-card input A♥ (size 1, neither 3 nor 5) it returns the numeric
rank 6185 + 14 = 6199 instead of failing. -/
theorem HandEvaluator.evaluate_single_card_returns_numeric_rank :
    HandEvaluator.evaluate [⟨.ace, .hearts⟩] = ((6199 : Nat) : ℕ∞) := by
  decide

/-- C5 (amended): `HandEvaluator.evaluate` never raises on a wrongly sized
input: it returns the infinite rank for the empty input and a numeric rank
for every non-empty input, whatever its size. -/
theorem HandEvaluator.evaluate_no_size_validation (cards : List Card) :
    (cards = [] → HandEvaluator.evaluate cards = ⊤) ∧
    (cards ≠ [] → ∃ n : Nat, HandEvaluator.evaluate cards = ((n : Nat) : ℕ∞)) := by
  constructor
  · intro h
    subst h
    rfl
  · intro h
    cases cards with
    | nil => exact absurd rfl h
    | cons c cs => exact ⟨HandEvaluator.evaluateRank (c :: cs), rfl⟩

/-- Witness for C5 (amended): the empty input gets the infinite rank and the
two-card input A♥K♥ gets a numeric rank. -/
theorem HandEvaluator.evaluate_no_size_validation_witness :
    HandEvaluator.evaluate [] = ⊤ ∧
    ∃ n : Nat,
      HandEvaluator.evaluate [⟨.ace, .hearts⟩, ⟨.king, .hearts⟩] =
        ((n : Nat) : ℕ∞) :=
  ⟨(HandEvaluator.evaluate_no_size_validation []).1 rfl,
   (HandEvaluator.evaluate_no_size_validation
     [⟨.ace, .hearts⟩, ⟨.king, .hearts⟩]).2 (by decide)⟩

/-- C6 (counterexample): on the empty — hence incomplete — board,
`check_fantasy_entry` returns the no-entry decision `False` with the state
untouched instead of failing (the incomplete early return in `is_valid`
happens before the broken `get_rank` call). -/
theorem FantasyManager.checkFantasyEntry_empty_board_returns_false :
    FantasyManager.checkFantasyEntry .progressive {} emptyBoard =
      Except.ok ({}, false) := by
  rfl

/-- C6 (amended): called on any incomplete board, `check_fantasy_entry`
returns `False` (no entry decision) and leaves the state unchanged, rather
than failing. -/
theorem FantasyManager.checkFantasyEntry_incomplete_board_no_entry
    (mode : FantasyMode) (st : FantasyState) (b : Board)
    (h : b.isComplete = false) :
    FantasyManager.checkFantasyEntry mode st b = Except.ok (st, false) := by
  simp only [FantasyManager.checkFantasyEntry,
             Board.isValid_ok_false_of_not_complete b h]
  rfl

/-- Witness for C6 (amended): the empty board is incomplete and produces the
no-entry result in normal mode. -/
theorem FantasyManager.checkFantasyEntry_incomplete_board_no_entry_witness :
    (emptyBoard.isComplete = false) ∧
    FantasyManager.checkFantasyEntry .normal {} emptyBoard =
      Except.ok ({}, false) :=
  ⟨by decide,
   FantasyManager.checkFantasyEntry_incomplete_board_no_entry
     .normal {} emptyBoard (by decide)⟩

/-- C7: on the concrete complete board whose front row is the pair of queens
Q♠Q♥2♠, `check_fantasy_entry` never succeeds: its very first call,
`board.is_valid()`, raises `TypeError` (unhashable list into the
`lru_cache`-wrapped `evaluate`), so no entry decision is returned and
`enter_fantasy` is never reached. Independently, the trigger detection
itself can never report the queens: `ranks[0] == 'Q'` compares a `Rank`
member against a string and is always false, and entering fantasy with no
stored bonus deals the base 13 cards. -/
theorem FantasyManager.progressive_pair_of_queens_never_deals_14 :
    qqBoard.isComplete = true ∧
    FantasyManager.checkFantasyEntry .progressive {} qqBoard =
      Except.error PyError.typeError ∧
    FantasyManager.checkProgressiveTrigger qqBoard.front.cards = none ∧
    (FantasyManager.enterFantasy .progressive {}).2 = 13 := by
  refine ⟨by decide, rfl, by decide, rfl⟩

/-- C8: the card string encoding round-trips (checked at A♥), but decoding a
board's structured form fails for any board holding a card: `core/card.py`
defines no `Card.from_dict`, so `Board.from_dict(board.to_dict())` raises
`AttributeError` instead of returning an identical board. -/
theorem Board.dict_roundtrip_attribute_error :
    Card.fromString (Card.toString ⟨.ace, .hearts⟩) =
      some (⟨.ace, .hearts⟩ : Card) ∧
    Board.fromDict (Board.toDict oneCardBoard) =
      .error PyError.attributeError := by
  exact ⟨by decide, rfl⟩

/-- C9: placing a card into a row already at its capacity raises the
row-full error and returns the board unchanged — no card is appended to any
row. -/
theorem Board.placeCard_full_row_errors_unchanged (b : Board) (c : Card)
    (s : Street) (h : (b.getStreet s).isFull = true) :
    b.placeCard c s = (b, some PlaceError.rowFull) := by
  have hlen : (b.getStreet s).cards.length = (b.getStreet s).maxCards := by
    simpa [StreetHand.isFull] using h
  simp [Board.placeCard, StreetHand.addCard, hlen]

/-- Witness for C9: placing 2♣ onto the full front row of the concrete board
fails with the row-full error and leaves the board as it was. -/
theorem Board.placeCard_full_row_errors_unchanged_witness :
    ((fullFrontBoard.getStreet .front).isFull = true) ∧
    fullFrontBoard.placeCard ⟨.two, .clubs⟩ .front =
      (fullFrontBoard, some PlaceError.rowFull) :=
  ⟨by decide,
   Board.placeCard_full_row_errors_unchanged fullFrontBoard
     ⟨.two, .clubs⟩ .front (by decide)⟩

/-- C10: the claimed side effect never happens. On the concrete complete
board whose front row trip twos match the trips trigger,
`check_fantasy_entry` raises `TypeError` from `board.is_valid()` before the
trigger check, so nothing is written into `progressive_bonus`; and on the
incomplete board carrying the same matching front row, the call returns the
no-entry decision with every state field — `progressive_bonus` included —
unchanged. -/
theorem FantasyManager.progressive_bonus_write_unreachable :
    FantasyManager.checkProgressiveTrigger tripsBoard.front.cards =
      some FantasyTrigger.threeOfKind ∧
    tripsBoard.isComplete = true ∧
    FantasyManager.checkFantasyEntry .progressive {} tripsBoard =
      Except.error PyError.typeError ∧
    FantasyManager.checkProgressiveTrigger tripsFrontOnlyBoard.front.cards =
      some FantasyTrigger.threeOfKind ∧
    FantasyManager.checkFantasyEntry .progressive {} tripsFrontOnlyBoard =
      Except.ok ({}, false) := by
  refine ⟨by decide, by decide, rfl, by decide, rfl⟩

end Newananas
